import Mathlib

/-!
Verification of the schema-generate code-generation engine (`output.go`).

The engine is a text generator: it walks an in-memory model (`Generator`,
`Struct`, `Field`) and emits Go source text implementing MarshalJSON,
UnmarshalJSON and ToMap for every code-generating record, preceded by the
declarations and an import block.

The shallow embedding below translates `output.go` function by function.
Go maps are modelled as association lists `List (String × _)` whose ambient
iteration order is irrelevant wherever the source sorts the keys first
(`getOrderedFieldNames` / `getOrderedStructNames`); the one place the source
iterates a map directly — the `imports` map in `Output`, lines 82-88 — is
modelled by passing the ambient iteration order as an explicit parameter
`importOrder`.  The `imports map[string]bool` set is modelled as a
duplicate-free `List String` in insertion order (`addImport`); only its
underlying set is ever observable apart from that one loop.

Each Go statement `fmt.Fprintf(w, ...)` appends bytes to a stream; the
embedding represents every emitter by a pure text function (the exact bytes
written, with `{`/`}` spelled `\x7b`/`\x7d`) plus, where the source also
mutates the `imports` set, a separate imports function mirroring the same
branch structure.  A loop iteration that writes nothing (Go `continue`, or a
false `if`) contributes the empty string to the fold.
-/

set_option maxRecDepth 200000
set_option maxHeartbeats 1000000

namespace SchemaGenerate

/-- Lexicographic comparison of char lists by code point; models the byte
order used by Go's `sort.Strings` (identical on UTF-8 for the orderings of
distinct strings used here). -/
def charListLe : List Char → List Char → Bool
  | [], _ => true
  | _ :: _, [] => false
  | a :: as, b :: bs =>
    if a.toNat < b.toNat then true
    else if b.toNat < a.toNat then false
    else charListLe as bs

/-- String comparison used for sorting keys. -/
def strLe (a b : String) : Bool := charListLe a.data b.data

/-- Insert a string into an already sorted list. -/
def insertSorted (x : String) : List String → List String
  | [] => [x]
  | y :: ys => if strLe x y then x :: y :: ys else y :: insertSorted x ys

/-- Insertion sort on strings; models `sort.Strings` (a sorted permutation
of the input; ties are equal strings, so the result is unique). -/
def sortStrings : List String → List String
  | [] => []
  | x :: xs => insertSorted x (sortStrings xs)

/-- Does `w` begin with `n`?  (Char-list level.) -/
def leadsWith : List Char → List Char → Bool
  | [], _ => true
  | _ :: _, [] => false
  | a :: n, b :: w => a == b && leadsWith n w

/-- Models Go `strings.HasPrefix s p`. -/
def strStartsWith (s p : String) : Bool := leadsWith p.data s.data

/-- Does `w` contain `n` as a contiguous run?  (Char-list level.) -/
def containsCL (n : List Char) : List Char → Bool
  | [] => n.isEmpty
  | c :: rest => leadsWith n (c :: rest) || containsCL n rest

/-- `n` occurs contiguously inside `w`. -/
def IsSubstring (n w : String) : Prop :=
  ∃ s t : List Char, s ++ n.data ++ t = w.data

/-- Concatenation of a list of strings. -/
def strConcat : List String → String
  | [] => ""
  | x :: xs => x ++ strConcat xs

/-- Models Go `strings.Join l sep`. -/
def strJoinSep (sep : String) : List String → String
  | [] => ""
  | [x] => x
  | x :: y :: xs => x ++ sep ++ strJoinSep sep (y :: xs)

/-- Models Go `strings.Split s "\n")`: split at every newline character. -/
def splitLines (s : String) : List String :=
  (s.data.splitOn '\n').map (fun l => String.mk l)

/-- Insertion into the collected facility set; models `imports[k] = true`
on the Go `map[string]bool` (a set: duplicates are not re-added). -/
def addImport (imports : List String) (k : String) : List String :=
  if k ∈ imports then imports else imports ++ [k]

/-- Indexing a Go map modelled as an association list (keys unique by the
model invariant; returns the first binding, or the zero value). -/
def mapGet {α : Type} [Inhabited α] : List (String × α) → String → α
  | [], _ => default
  | (k', v) :: rest, k => if k' = k then v else mapGet rest k

/-- Field descriptor; `output.go` usage sites (declaration identifier,
JSON key names for each direction, type descriptors, flags). -/
structure Field where
  Name : String
  Description : String
  MarshalName : String
  UnmarshalName : String
  MarshalType : String
  UnmarshalType : String
  Required : Bool
  OmitEmpty : Bool
deriving DecidableEq, Repr

instance : Inhabited Field := ⟨⟨"", "", "", "", "", "", false, false⟩⟩

/-- Record descriptor (Go `Struct`). -/
structure Struct where
  Name : String
  Description : String
  Fields : List (String × Field)
  AdditionalType : String
  GenerateCode : Bool
deriving DecidableEq, Repr

instance : Inhabited Struct := ⟨⟨"", "", [], "", false⟩⟩

/-- The model consumed by `Output` (Go `Generator`): record name → record,
alias name → field. -/
structure Generator where
  Structs : List (String × Struct)
  Aliases : List (String × Field)
deriving DecidableEq, Repr

/-- output.go lines 11-20: sorted keys of a field map. -/
def getOrderedFieldNames (m : List (String × Field)) : List String :=
  sortStrings (m.map Prod.fst)

/-- output.go lines 22-31: sorted keys of a struct map. -/
def getOrderedStructNames (m : List (String × Struct)) : List String :=
  sortStrings (m.map Prod.fst)

/-- output.go lines 35-57 (`getZeroValueCheck`): the stringified zero value
to check against, if one exists. -/
def getZeroValueCheck (schemaType : String) : String × Bool :=
  if strStartsWith schemaType "*" then ("nil", true)
  else if strStartsWith schemaType "[]" then ("nil", true)
  else if schemaType = "array" then ("nil", true)
  else if schemaType = "bool" then ("false", true)
  else if schemaType = "int" then ("0", true)
  else if schemaType = "float64" then ("0", true)
  else if schemaType = "nil" then ("nil", true)
  else if schemaType = "string" then ("\"\"", true)
  else ("", false)

/-- output.go lines 390-394 (`cleanPackageName`): `strings.Replace(pkg, ".",
"", -1)` then the same for `"-"` — removing every occurrence of a single
character with an empty replacement is a filter. -/
def cleanPackageName (pkg : String) : String :=
  String.mk ((pkg.data.filter (fun c => c != '.')).filter (fun c => c != '-'))

/-- output.go lines 370-378 (`outputNameAndDescriptionComment`). -/
def nameAndDescriptionComment (name description : String) : String :=
  if description.data.contains '\n' = false then
    "// " ++ name ++ " " ++ description ++ "\n"
  else
    "// " ++ name ++ " " ++ strJoinSep "\n// " (splitLines description) ++ "\n"

/-- output.go lines 380-388 (`outputFieldDescriptionComment`). -/
def fieldDescriptionComment (description : String) : String :=
  if description.data.contains '\n' = false then
    "\n  // " ++ description ++ "\n"
  else
    "\n  // " ++ strJoinSep "\n  // " (splitLines description) ++ "\n"

/-! ### Marshal emitter (output.go lines 129-219) -/

/-- Lines 130-135: the MarshalJSON header written once per struct. -/
def marshalHeaderText (s : Struct) : String :=
  "\nfunc (strct " ++ s.Name ++ ") MarshalJSON() ([]byte, error) \x7b\n\tlines := []string\x7b\x7d\n\t\n"

/-- Lines 144-156: required-field handling inside the field loop — a comment
naming the field, then for a pointer-prefixed marshal type a nil guard
returning an error, otherwise only a second explanatory comment. -/
def marshalReqText (f : Field) : String :=
  if f.Required then
    "    // \"" ++ f.Name ++ "\" field is required\n" ++
    (if strStartsWith f.MarshalType "*" then
      "    if strct." ++ f.Name ++ " == nil \x7b\n        return nil, errors.New(\"" ++
        f.MarshalName ++ " is a required field\")\n    \x7d\n"
    else
      "    // only required object types supported for marshal checking (for now)\n")
  else ""

/-- Lines 158-171: omit-empty conditional opener — a literal inequality test
when the Zero-Value Resolver yields a literal, else a reflective check. -/
def marshalOmitOpenText (f : Field) : String :=
  if f.OmitEmpty then
    (if (getZeroValueCheck f.MarshalType).2 then
      "\t// omit empty\n\tif strct." ++ f.Name ++ " != " ++
        (getZeroValueCheck f.MarshalType).1 ++ " \x7b\n"
    else
      "\t// Check using reflect.Value\n\tif reflect.ValueOf(strct." ++ f.Name ++
        ").IsZero() \x7b\n")
  else ""

/-- Lines 173-180: serialize the field and append its `"key": value`
fragment. -/
def marshalJSONText (f : Field) : String :=
  "  // Marshal the \"" ++ f.MarshalName ++ "\" field\n\tif tmp, err := json.Marshal(strct." ++
    f.Name ++ "); err != nil \x7b\n\t\treturn nil, err\n\t\x7d else \x7b\n" ++
  "lines = append(lines, fmt.Sprintf(\"\\\"" ++ f.MarshalName ++ "\\\": %s\", tmp))"

/-- Lines 182-193: close the braces opened for this field. -/
def marshalCloseText (f : Field) : String :=
  if f.OmitEmpty then "\n\t\x7d\n\x7d\n\n" else "\n\t\t\t\t\x7d\n\n"

/-- Lines 140-193: the text one field-loop iteration writes (`continue` for
the `"-"` marshal-name sentinel writes nothing). -/
def marshalFieldText (f : Field) : String :=
  if f.MarshalName = "-" then ""
  else marshalReqText f ++ marshalOmitOpenText f ++ marshalJSONText f ++ marshalCloseText f

/-- Imports updates of one field-loop iteration: line 148 registers
`errors` for a required pointer field, line 179 registers `fmt`. -/
def marshalFieldImports (f : Field) (imports : List String) : List String :=
  if f.MarshalName = "-" then imports
  else addImport
    (if f.Required && strStartsWith f.MarshalType "*" then addImport imports "errors"
     else imports) "fmt"

/-- Lines 196-212: additional-properties marshal loop (only when the
additional type is neither empty nor `"false"`). -/
def marshalAdditionalText (s : Struct) : String :=
  if s.AdditionalType = "" then ""
  else if s.AdditionalType = "false" then ""
  else
    "    // Marshal any additional Properties\n" ++
    "    for k, v := range strct.AdditionalProperties \x7b" ++
    "\n\t\t\tif tmp, err := json.Marshal(v); err != nil \x7b\n\t\t\t\treturn nil, err\n\t\t\t\x7d else \x7b\n\t\t\t\tlines = append(lines, fmt.Sprintf(\"\\\"%s\\\": %s\", k, tmp))\n\t\t\t\x7d\n\t\x7d\n"

/-- Lines 214-218: join the fragments and wrap in object braces. -/
def marshalFooterText : String :=
  "\n\treturn []byte(\"\x7b\" + strings.Join(lines, \", \") + \"\x7d\"), nil\n\x7d\n"

/-- Text stream of `emitMarshalCode` (lines 129-219). -/
def emitMarshalText (s : Struct) : String :=
  marshalHeaderText s ++
  (if 0 < s.Fields.length then
    (getOrderedFieldNames s.Fields).foldl
      (fun acc k => acc ++ marshalFieldText (mapGet s.Fields k)) ""
  else "") ++
  marshalAdditionalText s ++ marshalFooterText

/-- Imports updates of `emitMarshalCode`: the field loop (lines 148, 179),
line 198 (`fmt` for additional properties), line 214 (`strings`). -/
def emitMarshalImports (s : Struct) (imports : List String) : List String :=
  let i1 :=
    if 0 < s.Fields.length then
      (getOrderedFieldNames s.Fields).foldl
        (fun acc k => marshalFieldImports (mapGet s.Fields k) acc) imports
    else imports
  let i2 :=
    if s.AdditionalType = "" then i1
    else if s.AdditionalType = "false" then i1
    else addImport i1 "fmt"
  addImport i2 "strings"

/-- output.go `emitMarshalCode`: writes text to the code buffer and updates
the facility set. -/
def emitMarshalCode (s : Struct) (imports : List String) : String × List String :=
  (emitMarshalText s, emitMarshalImports s imports)

/-! ### Unmarshal emitter (output.go lines 221-351) -/

/-- Lines 221-268 (`emitUnmarshalFieldCode`), text part: a dispatch case
when the marshal/unmarshal types agree or form one of the two supported
text↔integer shapes; otherwise nothing. -/
def unmarshalFieldText (f : Field) : String :=
  if f.MarshalType = f.UnmarshalType then
    "        case \"" ++ f.UnmarshalName ++ "\":\n            if err := json.Unmarshal([]byte(v), &strct." ++
      f.Name ++ "); err != nil \x7b\n                return err\n             \x7d\n"
  else if f.UnmarshalType = "string" then
    if f.MarshalType = "int" then
      "        case \"" ++ f.UnmarshalName ++ "\":\n            if newVal, err := strconv.ParseInt(v, 10, 0); err != nil \x7b\n                return err\n             \x7d\n            if err := json.Unmarshal([]byte(newVal), &strct." ++
        f.Name ++ "); err != nil \x7b\n                return err\n             \x7d\n"
    else ""
  else if f.UnmarshalType = "int" then
    if f.MarshalType = "string" then
      "        case \"" ++ f.UnmarshalName ++ "\":\n\t\t\tvar intVal int\n            if err := json.Unmarshal([]byte(v), &intVal); err != nil \x7b\n                return err\n             \x7d\n            strct." ++
        f.Name ++ " = strconv.Itoa(intVal)\n"
    else ""
  else ""

/-- Lines 221-268, imports part: only the int-unmarshal/string-marshal
branch registers `strconv` (line 252). -/
def unmarshalFieldImports (f : Field) (imports : List String) : List String :=
  if f.MarshalType = f.UnmarshalType then imports
  else if f.UnmarshalType = "string" then imports
  else if f.UnmarshalType = "int" then
    if f.MarshalType = "string" then addImport imports "strconv" else imports
  else imports

/-- output.go `emitUnmarshalFieldCode`. -/
def emitUnmarshalFieldCode (f : Field) (imports : List String) : String × List String :=
  (unmarshalFieldText f, unmarshalFieldImports f imports)

/-- Lines 273-275: UnmarshalJSON header. -/
def unmarshalHeadText (s : Struct) : String :=
  "\nfunc (strct *" ++ s.Name ++ ") UnmarshalJSON(b []byte) error \x7b\n"

/-- Lines 277-282: one received-flag initialization per required field, in
sorted field order (note: no `"-"` sentinel skip here). -/
def flagsText (s : Struct) : String :=
  (getOrderedFieldNames s.Fields).foldl
    (fun acc k => acc ++
      (let f := mapGet s.Fields k
       if f.Required then "    " ++ f.UnmarshalName ++ "Received := false\n" else "")) ""

/-- Lines 284-287: generic parse of the input into a raw-message map. -/
def unmarshalParseText : String :=
  "    var jsonMap map[string]json.RawMessage\n    if err := json.Unmarshal(b, &jsonMap); err != nil \x7b\n        return err\n    \x7d"

/-- Lines 290-295: open the dispatch loop and switch. -/
def unmarshalLoopOpenText : String :=
  "\n    // parse all the defined properties\n    for k, v := range jsonMap \x7b\n        if v != nil \x7b\n\t\t\tswitch k \x7b\n"

/-- Lines 297-309: per-field dispatch cases in sorted field order — skip the
`"-"` unmarshal-name sentinel, emit the field's case (possibly empty), then
the received-flag assignment for a required field. -/
def casesText (s : Struct) : String :=
  (getOrderedFieldNames s.Fields).foldl
    (fun acc k => acc ++
      (let f := mapGet s.Fields k
       if f.UnmarshalName = "-" then ""
       else unmarshalFieldText f ++
         (if f.Required then "            " ++ f.UnmarshalName ++ "Received = true\n" else ""))) ""

/-- Lines 311-332: the default case — absent for an empty additional type,
`continue` for `"false"`, a decode-and-store branch otherwise. -/
def unmarshalAdditionalText (s : Struct) : String :=
  if s.AdditionalType = "" then ""
  else if s.AdditionalType = "false" then
    "        default:\n            continue\n"
  else
    "        default:\n            // an additional \"" ++ s.AdditionalType ++
    "\" value\n            var additionalValue " ++ s.AdditionalType ++
    "\n            if err := json.Unmarshal([]byte(v), &additionalValue); err != nil \x7b\n                return err // invalid additionalProperty\n            \x7d\n            if strct.AdditionalProperties == nil \x7b\n                strct.AdditionalProperties = make(map[string]" ++
    s.AdditionalType ++ ", 0)\n            \x7d\n            strct.AdditionalProperties[k]= additionalValue\n"

/-- Lines 333-334: close the switch and the loop. -/
def unmarshalCloseText : String := "        \x7d\x7d\n    \x7d\n"

/-- Lines 337-347: post-loop check, one error block per required field in
sorted field order (no sentinel skip). -/
def checksText (s : Struct) : String :=
  (getOrderedFieldNames s.Fields).foldl
    (fun acc k => acc ++
      (let f := mapGet s.Fields k
       if f.Required then
         "    // check if " ++ f.UnmarshalName ++ " (a required property) was received\n    if !" ++
         f.UnmarshalName ++ "Received \x7b\n        return errors.New(\"\\\"" ++
         f.UnmarshalName ++ "\\\" is required but was not present\")\n    \x7d\n"
       else "")) ""

/-- Lines 349-350: success return and closing brace. -/
def unmarshalEndText : String := "    return nil\n\x7d\n"

/-- Text stream of `emitUnmarshalCode` (lines 270-351). -/
def emitUnmarshalText (s : Struct) : String :=
  unmarshalHeadText s ++ flagsText s ++ unmarshalParseText ++ unmarshalLoopOpenText ++
  casesText s ++ unmarshalAdditionalText s ++ unmarshalCloseText ++ checksText s ++
  unmarshalEndText

/-- Imports updates of `emitUnmarshalCode`: line 271 (`encoding/json`), the
dispatch loop (line 252 via `emitUnmarshalFieldCode`, skipping the sentinel),
line 315 (`fmt` when additional properties are disallowed), line 340
(`errors` per required field). -/
def emitUnmarshalImports (s : Struct) (imports : List String) : List String :=
  let i0 := addImport imports "encoding/json"
  let i1 := (getOrderedFieldNames s.Fields).foldl
    (fun acc k =>
      let f := mapGet s.Fields k
      if f.UnmarshalName = "-" then acc else unmarshalFieldImports f acc) i0
  let i2 :=
    if s.AdditionalType = "" then i1
    else if s.AdditionalType = "false" then addImport i1 "fmt"
    else i1
  (getOrderedFieldNames s.Fields).foldl
    (fun acc k => if (mapGet s.Fields k).Required then addImport acc "errors" else acc) i2

/-- output.go `emitUnmarshalCode`. -/
def emitUnmarshalCode (s : Struct) (imports : List String) : String × List String :=
  (emitUnmarshalText s, emitUnmarshalImports s imports)

/-- output.go lines 353-368 (`emitToMapCode`): one assignment per declared
field in sorted order, keyed by the marshal name; takes no imports set. -/
def emitToMapCode (s : Struct) : String :=
  "\nfunc (strct *" ++ s.Name ++ ") ToMap() map[string]any \x7b\n" ++
  "    m := make(map[string]any)\n" ++
  (getOrderedFieldNames s.Fields).foldl
    (fun acc k => acc ++
      (let f := mapGet s.Fields k
       "    m[\"" ++ f.MarshalName ++ "\"] = strct." ++ f.Name ++ "\n")) "" ++
  "    return m\n\x7d\n"

/-- output.go lines 73-80: the generated-code buffer — for every struct in
sorted order with `GenerateCode`, the three routines in order. -/
def codeText (g : Generator) : String :=
  (getOrderedStructNames g.Structs).foldl
    (fun acc k => acc ++
      (let s := mapGet g.Structs k
       if s.GenerateCode then
         emitMarshalText s ++ emitUnmarshalText s ++ emitToMapCode s
       else "")) ""

/-- output.go lines 73-80: the facility set collected by the same loop. -/
def collectImports (g : Generator) : List String :=
  (getOrderedStructNames g.Structs).foldl
    (fun acc k =>
      let s := mapGet g.Structs k
      if s.GenerateCode then emitUnmarshalImports s (emitMarshalImports s acc) else acc) []

/-- Lines 64-66: generated-file marker, blank line, package declaration. -/
def outputHeaderText (pkg : String) : String :=
  "// Code generated by schema-generate. DO NOT EDIT.\n" ++ "\n" ++
  ("package " ++ cleanPackageName pkg ++ "\n")

/-- Lines 90-96 loop body: one alias declaration. -/
def aliasDeclText (a : Field) : String :=
  "\n" ++ ("// " ++ a.Name ++ "\n") ++ ("type " ++ a.Name ++ " " ++ a.UnmarshalType ++ "\n")

/-- Lines 114-119: one field declaration line, optionally preceded by its
description comment. -/
def fieldDeclText (f : Field) : String :=
  (if f.Description = "" then "" else fieldDescriptionComment f.Description) ++
  ("  " ++ f.Name ++ " " ++ f.MarshalType ++ "\n")

/-- Lines 98-123 loop body: one record declaration block. -/
def structDeclText (s : Struct) : String :=
  "\n" ++ nameAndDescriptionComment s.Name s.Description ++
  ("type " ++ s.Name ++ " struct \x7b\n") ++
  (getOrderedFieldNames s.Fields).foldl
    (fun acc fk => acc ++ fieldDeclText (mapGet s.Fields fk)) "" ++
  "\x7d\n"

/-- output.go lines 60-127 (`Output`): header; import block iterating the
`imports` map in its ambient iteration order `importOrder` (lines 82-88),
present only when the set is non-empty; alias declarations; record
declarations; then the buffered code. -/
def Output (g : Generator) (pkg : String) (importOrder : List String) : String :=
  outputHeaderText pkg ++
  (if 0 < (collectImports g).length then
    "\nimport (\n" ++
      importOrder.foldl (fun acc k => acc ++ ("    \"" ++ k ++ "\"\n")) "" ++ ")\n"
  else "") ++
  (getOrderedFieldNames g.Aliases).foldl
    (fun acc k => acc ++ aliasDeclText (mapGet g.Aliases k)) "" ++
  (getOrderedStructNames g.Structs).foldl
    (fun acc k => acc ++ structDeclText (mapGet g.Structs k)) "" ++
  codeText g

/-! ### Specification-side section descriptions (for the output contract) -/

/-- The facility/import block as the spec describes it: present only when
the collected facility set is non-empty, one quoted line per facility in the
ambient iteration order of the set. -/
def importSectionText (g : Generator) (importOrder : List String) : String :=
  if collectImports g = [] then ""
  else "\nimport (\n" ++ strConcat (importOrder.map (fun k => "    \"" ++ k ++ "\"\n")) ++ ")\n"

/-- One type-synonym declaration per alias, in sorted alias order. -/
def aliasSectionText (g : Generator) : String :=
  strConcat ((getOrderedFieldNames g.Aliases).map (fun k => aliasDeclText (mapGet g.Aliases k)))

/-- One declaration block per record, in sorted record order. -/
def structSectionText (g : Generator) : String :=
  strConcat ((getOrderedStructNames g.Structs).map (fun k => structDeclText (mapGet g.Structs k)))

/-- The buffered Marshal/Unmarshal/Map-View routines for every record
flagged `GenerateCode`, in the same sorted record order. -/
def codeSectionText (g : Generator) : String :=
  strConcat ((getOrderedStructNames g.Structs).map
    (fun k =>
      let s := mapGet g.Structs k
      if s.GenerateCode then emitMarshalText s ++ emitUnmarshalText s ++ emitToMapCode s
      else ""))

/-- Everything the output stream contains after the import block. -/
def outputTailText (g : Generator) : String :=
  aliasSectionText g ++ structSectionText g ++ codeSectionText g

/-! ### Concrete models used as counterexamples and witnesses -/

/-- One code-generating record with no fields: its routines already need two
facilities (`strings`, `encoding/json`), enough to expose the import-block
order dependence. -/
def C1Generator : Generator := ⟨[("A", ⟨"A", "", [], "", true⟩)], []⟩

/-- An omit-empty field of an aggregate type with no zero literal. -/
def C2Struct : Struct :=
  ⟨"S", "", [("F", ⟨"F", "", "f", "f", "SomeStruct", "SomeStruct", false, true⟩)], "", true⟩

/-- A record whose routines use `reflect` (omit-empty aggregate field) and
`strconv.ParseInt` (text-unmarshal/integer-marshal divergence). -/
def C3Generator : Generator :=
  ⟨[("S3", ⟨"S3", "",
      [("N", ⟨"N", "", "n", "n", "int", "string", false, false⟩),
       ("R", ⟨"R", "", "r", "r", "SomeObj", "SomeObj", false, true⟩)],
      "", true⟩)], []⟩

/-- A required pointer-typed field excluded from serialization by the
`"-"` marshal-name sentinel. -/
def C4XStruct : Struct :=
  ⟨"S4", "", [("Ptr", ⟨"Ptr", "", "-", "ptr", "*Obj", "*Obj", true, false⟩)], "", true⟩

/-- Required pointer field and required non-pointer field, both serialized. -/
def C4FieldP : Field := ⟨"P", "", "p", "p", "*T", "*T", true, false⟩

/-- Required non-pointer field used in the `C4WStruct` witness. -/
def C4FieldQ : Field := ⟨"Q", "", "q", "q", "int", "int", true, false⟩

/-- Witness record for the amended required-field marshal claim. -/
def C4WStruct : Struct := ⟨"W4", "", [("P", C4FieldP), ("Q", C4FieldQ)], "", true⟩

/-- A required field whose read key is the `"-"` sentinel: its received-flag
is declared but never set. -/
def C5XStruct : Struct :=
  ⟨"S5", "", [("Hidden", ⟨"Hidden", "", "h", "-", "int", "int", true, false⟩)], "", true⟩

/-- Ordinary required field used in the `C5WStruct` witness. -/
def C5FieldA : Field := ⟨"A", "", "a", "a", "int", "int", true, false⟩

/-- Witness record for the amended required-field unmarshal claim. -/
def C5WStruct : Struct := ⟨"W5", "", [("A", C5FieldA)], "", true⟩

/-- A required field with an unsupported marshal/unmarshal type divergence
(`bool` vs `float64`). -/
def C6XStruct : Struct :=
  ⟨"S6", "", [("X", ⟨"X", "", "x", "x", "bool", "float64", true, false⟩)], "", true⟩

/-- A field whose marshal name is the exclusion sentinel, still projected by
`ToMap` under the literal key `"-"`. -/
def C9FieldH : Field := ⟨"H", "", "-", "-", "int", "int", false, false⟩

/-- Witness record for the map-view claim. -/
def C9Struct : Struct := ⟨"W9", "", [("H", C9FieldH)], "", true⟩

/-- Witness record (empty additional type) for the no-default-case claim. -/
def C10Struct : Struct := ⟨"W10", "", [], "", true⟩

/-! ### Basic lemmas -/

theorem strConcat_cons (x : String) (xs : List String) :
    strConcat (x :: xs) = x ++ strConcat xs := rfl

/-- An imperative write-in-a-loop is the concatenation of the per-iteration
texts. -/
theorem foldl_emit {α : Type} (F : α → String) :
    ∀ (l : List α) (init : String),
      l.foldl (fun acc x => acc ++ F x) init = init ++ strConcat (l.map F)
  | [], init => by simp [strConcat]
  | x :: xs, init => by
    simp only [List.foldl, List.map_cons, strConcat_cons]
    rw [foldl_emit F xs (init ++ F x), String.append_assoc]

theorem IsSubstring.refl (n : String) : IsSubstring n n := ⟨[], [], by simp⟩

theorem IsSubstring.appendLeft {n w : String} (h : IsSubstring n w) (x : String) :
    IsSubstring n (x ++ w) := by
  obtain ⟨s, t, hst⟩ := h
  exact ⟨x.data ++ s, t, by rw [String.data_append, ← hst]; simp [List.append_assoc]⟩

theorem IsSubstring.appendRight {n w : String} (h : IsSubstring n w) (x : String) :
    IsSubstring n (w ++ x) := by
  obtain ⟨s, t, hst⟩ := h
  exact ⟨s, t ++ x.data, by rw [String.data_append, ← hst]; simp [List.append_assoc]⟩

theorem isSubstring_concat {α : Type} (F : α → String) {x : α} {l : List α}
    (hx : x ∈ l) : IsSubstring (F x) (strConcat (l.map F)) := by
  induction l with
  | nil => cases hx
  | cons y ys ih =>
    simp only [List.map_cons, strConcat_cons]
    rcases List.mem_cons.mp hx with rfl | h
    · exact (IsSubstring.refl (F x)).appendRight (strConcat (ys.map F))
    · exact (ih h).appendLeft (F y)

theorem leadsWith_iff : ∀ (n w : List Char), leadsWith n w = true ↔ ∃ t, n ++ t = w
  | [], w => by simp [leadsWith]
  | a :: n, [] => by simp [leadsWith]
  | a :: n, b :: w => by
    simp only [leadsWith, Bool.and_eq_true, beq_iff_eq, List.cons_append, List.cons.injEq]
    constructor
    · rintro ⟨rfl, h⟩
      obtain ⟨t, ht⟩ := (leadsWith_iff n w).mp h
      exact ⟨t, rfl, ht⟩
    · rintro ⟨t, rfl, ht⟩
      exact ⟨rfl, (leadsWith_iff n w).mpr ⟨t, ht⟩⟩

theorem containsCL_iff : ∀ (n w : List Char), containsCL n w = true ↔ ∃ s t, s ++ n ++ t = w
  | n, [] => by
    simp [containsCL, List.isEmpty_iff, List.append_eq_nil]
  | n, c :: rest => by
    simp only [containsCL, Bool.or_eq_true]
    rw [leadsWith_iff, containsCL_iff n rest]
    constructor
    · rintro (⟨t, ht⟩ | ⟨s, t, hst⟩)
      · exact ⟨[], t, by simpa using ht⟩
      · exact ⟨c :: s, t, by simpa using hst⟩
    · rintro ⟨s, t, hst⟩
      cases s with
      | nil => exact Or.inl ⟨t, by simpa using hst⟩
      | cons c' s' =>
        simp only [List.cons_append] at hst
        injection hst with h1 h2
        subst h1
        exact Or.inr ⟨s', t, by simpa using h2⟩

instance (n w : String) : Decidable (IsSubstring n w) :=
  decidable_of_iff (containsCL n.data w.data = true) (containsCL_iff n.data w.data)

theorem mem_insertSorted {x y : String} {l : List String} (h : x = y ∨ x ∈ l) :
    x ∈ insertSorted y l := by
  induction l with
  | nil =>
    simp only [insertSorted]
    rcases h with rfl | h2
    · exact List.mem_cons_self _ _
    · cases h2
  | cons z zs ih =>
    simp only [insertSorted]
    split
    · rcases h with rfl | h2
      · exact List.mem_cons_self _ _
      · exact List.mem_cons_of_mem _ h2
    · rcases h with rfl | h2
      · exact List.mem_cons_of_mem _ (ih (Or.inl rfl))
      · rcases List.mem_cons.mp h2 with rfl | h3
        · exact List.mem_cons_self _ _
        · exact List.mem_cons_of_mem _ (ih (Or.inr h3))

theorem mem_sortStrings {x : String} {l : List String} (h : x ∈ l) : x ∈ sortStrings l := by
  induction l with
  | nil => cases h
  | cons y ys ih =>
    simp only [sortStrings]
    rcases List.mem_cons.mp h with rfl | h2
    · exact mem_insertSorted (Or.inl rfl)
    · exact mem_insertSorted (Or.inr (ih h2))

/-- Indexing an association list with unique keys at a key it binds yields
that binding (soundness of the Go-map model). -/
theorem mapGet_eq {α : Type} [Inhabited α] {m : List (String × α)} {k : String} {v : α}
    (hnd : (m.map Prod.fst).Nodup) (hmem : (k, v) ∈ m) : mapGet m k = v := by
  induction m with
  | nil => cases hmem
  | cons p rest ih =>
    obtain ⟨k', v'⟩ := p
    simp only [List.map_cons, List.nodup_cons] at hnd
    rcases List.mem_cons.mp hmem with heq | h
    · injection heq with h1 h2
      subst h1; subst h2
      simp [mapGet]
    · have hne : k' ≠ k := by
        rintro rfl
        exact hnd.1 (List.mem_map_of_mem Prod.fst h)
      simp only [mapGet, if_neg hne]
      exact ih hnd.2 h

/-! ### Section decomposition lemmas -/

theorem emitMarshalText_eq (s : Struct) :
    emitMarshalText s =
      marshalHeaderText s ++
      strConcat ((getOrderedFieldNames s.Fields).map
        (fun k => marshalFieldText (mapGet s.Fields k))) ++
      marshalAdditionalText s ++ marshalFooterText := by
  unfold emitMarshalText
  rcases Nat.eq_zero_or_pos s.Fields.length with h | h
  · have hnil : s.Fields = [] := List.length_eq_zero.mp h
    simp [hnil, getOrderedFieldNames, sortStrings, strConcat]
  · rw [if_pos h, foldl_emit, String.empty_append]

theorem flagsText_eq (s : Struct) :
    flagsText s = strConcat ((getOrderedFieldNames s.Fields).map
      (fun k =>
        let f := mapGet s.Fields k
        if f.Required then "    " ++ f.UnmarshalName ++ "Received := false\n" else "")) := by
  unfold flagsText
  rw [foldl_emit, String.empty_append]

theorem casesText_eq (s : Struct) :
    casesText s = strConcat ((getOrderedFieldNames s.Fields).map
      (fun k =>
        let f := mapGet s.Fields k
        if f.UnmarshalName = "-" then ""
        else unmarshalFieldText f ++
          (if f.Required then "            " ++ f.UnmarshalName ++ "Received = true\n"
           else ""))) := by
  unfold casesText
  rw [foldl_emit, String.empty_append]

theorem checksText_eq (s : Struct) :
    checksText s = strConcat ((getOrderedFieldNames s.Fields).map
      (fun k =>
        let f := mapGet s.Fields k
        if f.Required then
          "    // check if " ++ f.UnmarshalName ++ " (a required property) was received\n    if !" ++
          f.UnmarshalName ++ "Received \x7b\n        return errors.New(\"\\\"" ++
          f.UnmarshalName ++ "\\\" is required but was not present\")\n    \x7d\n"
        else "")) := by
  unfold checksText
  rw [foldl_emit, String.empty_append]

theorem emitToMapCode_eq (s : Struct) :
    emitToMapCode s =
      "\nfunc (strct *" ++ s.Name ++ ") ToMap() map[string]any \x7b\n" ++
      "    m := make(map[string]any)\n" ++
      strConcat ((getOrderedFieldNames s.Fields).map
        (fun k =>
          let f := mapGet s.Fields k
          "    m[\"" ++ f.MarshalName ++ "\"] = strct." ++ f.Name ++ "\n")) ++
      "    return m\n\x7d\n" := by
  unfold emitToMapCode
  rw [foldl_emit, String.empty_append]

theorem codeText_eq (g : Generator) : codeText g = codeSectionText g := by
  unfold codeText codeSectionText
  rw [foldl_emit, String.empty_append]

/-- `Output` splits into the header, the import block (whose content is the
ambient-order dependent part), and the order-independent tail. -/
theorem output_decomp (g : Generator) (pkg : String) (importOrder : List String) :
    Output g pkg importOrder =
      outputHeaderText pkg ++ importSectionText g importOrder ++ outputTailText g := by
  unfold Output importSectionText outputTailText aliasSectionText structSectionText
  rw [foldl_emit, foldl_emit, foldl_emit, codeText_eq]
  rcases eq_or_ne (collectImports g) [] with h | h
  · rw [if_pos h, if_neg (by simp [h])]
    simp [String.append_assoc, codeSectionText]
  · rw [if_neg h, if_pos (List.length_pos.mpr h)]
    simp [String.append_assoc, codeSectionText]

theorem IsSubstring.trans {a b c : String} (h1 : IsSubstring a b) (h2 : IsSubstring b c) :
    IsSubstring a c := by
  obtain ⟨s1, t1, e1⟩ := h1
  obtain ⟨s2, t2, e2⟩ := h2
  exact ⟨s2 ++ s1, t1 ++ t2, by rw [← e2, ← e1]; simp [List.append_assoc]⟩

/-- A substring of the text a field-loop iteration writes is a substring of
the whole MarshalJSON routine. -/
theorem isSubstring_emitMarshalText {s : Struct} {k : String} {f : Field} {n : String}
    (hnd : (s.Fields.map Prod.fst).Nodup) (hmem : (k, f) ∈ s.Fields)
    (hsub : IsSubstring n (marshalFieldText f)) :
    IsSubstring n (emitMarshalText s) := by
  rw [emitMarshalText_eq]
  have hk : k ∈ getOrderedFieldNames s.Fields :=
    mem_sortStrings (List.mem_map_of_mem Prod.fst hmem)
  have h2 := isSubstring_concat (fun k2 => marshalFieldText (mapGet s.Fields k2)) hk
  simp only [mapGet_eq hnd hmem] at h2
  exact (((hsub.trans h2).appendLeft (marshalHeaderText s)).appendRight
    (marshalAdditionalText s)).appendRight marshalFooterText

/-- A substring of the flag-initialization section is a substring of the
whole UnmarshalJSON routine. -/
theorem isSubstring_unmarshal_of_flags {s : Struct} {n : String}
    (h : IsSubstring n (flagsText s)) : IsSubstring n (emitUnmarshalText s) := by
  unfold emitUnmarshalText
  exact (((((((h.appendLeft _).appendRight _).appendRight _).appendRight _).appendRight
    _).appendRight _).appendRight _).appendRight _

/-- A substring of the dispatch-case section is a substring of the whole
UnmarshalJSON routine. -/
theorem isSubstring_unmarshal_of_cases {s : Struct} {n : String}
    (h : IsSubstring n (casesText s)) : IsSubstring n (emitUnmarshalText s) := by
  unfold emitUnmarshalText
  exact ((((h.appendLeft _).appendRight _).appendRight _).appendRight _).appendRight _

/-- A substring of the required-field check section is a substring of the
whole UnmarshalJSON routine. -/
theorem isSubstring_unmarshal_of_checks {s : Struct} {n : String}
    (h : IsSubstring n (checksText s)) : IsSubstring n (emitUnmarshalText s) := by
  unfold emitUnmarshalText
  exact (h.appendLeft _).appendRight _

/-! ### Claims -/

/-- C7: the Zero-Value Resolver is a total function of the type-descriptor
string: descriptors prefixed `*` or `[]` return `("nil", true)`; `bool`
returns `("false", true)`; `int` and `float64` return `("0", true)`;
`string` returns `("\"\"", true)`; `nil` and `array` return `("nil", true)`;
every other descriptor returns `("", false)`, signalling that a structural
check must be used.  As a Lean function of the descriptor alone it is total,
has no side effects and cannot fail. -/
theorem C7_zero_value_resolver_total_table (t : String) :
    getZeroValueCheck t =
      (if strStartsWith t "*" then ("nil", true)
       else if strStartsWith t "[]" then ("nil", true)
       else if t = "bool" then ("false", true)
       else if t = "int" then ("0", true)
       else if t = "float64" then ("0", true)
       else if t = "string" then ("\"\"", true)
       else if t = "nil" then ("nil", true)
       else if t = "array" then ("nil", true)
       else ("", false)) := by
  unfold getZeroValueCheck
  split_ifs <;> simp_all

/-- C1 counterexample: the claim says every piece of the output stream,
including the facility/import block, is independent of ambient
mapping-iteration order.  False: for the same model and two ambient
iteration orders of the same collected facility set `{strings,
encoding/json}`, `Output` produces different bytes (the import block lists
the facilities in ambient order, output.go lines 82-88). -/
theorem C1_import_order_counterexample :
    (["strings", "encoding/json"] : List String).Perm (collectImports C1Generator) ∧
    (["encoding/json", "strings"] : List String).Perm (collectImports C1Generator) ∧
    Output C1Generator "demo" ["strings", "encoding/json"] ≠
      Output C1Generator "demo" ["encoding/json", "strings"] := by decide

/-- C1 amended: generating twice from an unchanged model yields output that
is byte-identical outside the facility/import block — the stream decomposes
as a fixed header, the import block (whose line order is the ambient
iteration order of the collected facility set), and a fixed tail — and is
byte-identical in full whenever the ambient orders agree, in particular
whenever the collected facility set has at most one element. -/
theorem C1_amended_determinism_modulo_import_block (g : Generator) (pkg : String)
    (ord1 ord2 : List String)
    (h1 : ord1.Perm (collectImports g)) (h2 : ord2.Perm (collectImports g)) :
    Output g pkg ord1 =
      outputHeaderText pkg ++ importSectionText g ord1 ++ outputTailText g ∧
    Output g pkg ord2 =
      outputHeaderText pkg ++ importSectionText g ord2 ++ outputTailText g ∧
    ((collectImports g).length ≤ 1 → Output g pkg ord1 = Output g pkg ord2) := by
  refine ⟨output_decomp g pkg ord1, output_decomp g pkg ord2, ?_⟩
  intro hlen
  have h12 : ord1 = ord2 := by
    rcases hci : collectImports g with _ | ⟨x, _ | ⟨y, rest⟩⟩
    · rw [hci] at h1 h2
      rw [h1.eq_nil, h2.eq_nil]
    · rw [hci] at h1 h2
      rw [List.perm_singleton.mp h1, List.perm_singleton.mp h2]
    · rw [hci] at hlen
      simp at hlen
  rw [h12]

/-- C1 amended, witness at a concrete model and iteration order. -/
theorem C1_amended_witness :
    (Output C1Generator "demo" ["strings", "encoding/json"] =
      outputHeaderText "demo" ++
        importSectionText C1Generator ["strings", "encoding/json"] ++
        outputTailText C1Generator) ∧
    (Output C1Generator "demo" ["strings", "encoding/json"] =
      outputHeaderText "demo" ++
        importSectionText C1Generator ["strings", "encoding/json"] ++
        outputTailText C1Generator) ∧
    ((collectImports C1Generator).length ≤ 1 →
      Output C1Generator "demo" ["strings", "encoding/json"] =
        Output C1Generator "demo" ["strings", "encoding/json"]) :=
  C1_amended_determinism_modulo_import_block C1Generator "demo"
    ["strings", "encoding/json"] ["strings", "encoding/json"] (by decide) (by decide)

/-- C2: the claim (and spec) say an omit-empty field with no zero literal is
skipped when a structural emptiness check holds.  The code does the
opposite: at the failing input (omit-empty field `F` of aggregate type
`SomeStruct`, for which the Zero-Value Resolver yields no literal) the
emitted conditional is `if reflect.ValueOf(strct.F).IsZero() \x7b` wrapping
the field's marshal fragment directly — the field is serialized only when
it IS zero and skipped when non-zero (no negation appears anywhere in the
routine).  output.go lines 165-170: the intended check is the negation. -/
theorem C2_inverted_omitempty_guard :
    getZeroValueCheck "SomeStruct" = ("", false) ∧
    IsSubstring
      ("\t// Check using reflect.Value\n\tif reflect.ValueOf(strct.F).IsZero() \x7b\n" ++
        "  // Marshal the \"f\" field\n")
      (emitMarshalCode C2Struct []).1 ∧
    ¬ IsSubstring "!reflect" (emitMarshalCode C2Struct []).1 := by decide

/-- C3: the claim says the collected facility set contains every external
package referenced by the emitted routines' text.  At the failing input the
emitted code references `reflect.ValueOf` (omit-empty aggregate field,
lines 166-169 register nothing) and `strconv.ParseInt` (text-unmarshal /
integer-marshal divergence, lines 236-243 register nothing), yet neither
`reflect` nor `strconv` is in the collected set, so the emitted file does
not compile. -/
theorem C3_missing_facility_registration :
    IsSubstring "reflect.ValueOf" (codeText C3Generator) ∧
    IsSubstring "strconv.ParseInt" (codeText C3Generator) ∧
    "reflect" ∉ collectImports C3Generator ∧
    "strconv" ∉ collectImports C3Generator := by decide

/-- C6 counterexample: the claim says that for an unsupported
marshal/unmarshal divergence the emitted unmarshal routine contains no code
for the field.  For a REQUIRED such field (`X`: marshal `bool`, unmarshal
`float64`) the routine does contain code for it: the received-flag
assignment `xReceived = true` is still emitted (output.go lines 306-308),
stranded outside any case of its own, besides the flag declaration and the
post-loop check. -/
theorem C6_required_divergent_counterexample :
    (mapGet C6XStruct.Fields "X").MarshalType ≠ (mapGet C6XStruct.Fields "X").UnmarshalType ∧
    (mapGet C6XStruct.Fields "X").Required = true ∧
    unmarshalFieldText (mapGet C6XStruct.Fields "X") = "" ∧
    IsSubstring "            xReceived = true\n" (emitUnmarshalCode C6XStruct []).1 := by decide

/-- C6 amended: for every field whose marshal and unmarshal types differ
and are not one of the two supported text↔integer shapes, the per-field
case emitter `emitUnmarshalFieldCode` produces no dispatch case and leaves
the facility set unchanged; for a non-required such field the routine
contains no code for it, but a required one still gets its received-flag
bookkeeping (see the counterexample). -/
theorem C6_amended_no_case_emitted (f : Field) (i : List String)
    (hne : f.MarshalType ≠ f.UnmarshalType)
    (hs : ¬ (f.UnmarshalType = "string" ∧ f.MarshalType = "int"))
    (hi : ¬ (f.UnmarshalType = "int" ∧ f.MarshalType = "string")) :
    emitUnmarshalFieldCode f i = ("", i) := by
  unfold emitUnmarshalFieldCode unmarshalFieldText unmarshalFieldImports
  by_cases hu1 : f.UnmarshalType = "string"
  · have hm : f.MarshalType ≠ "int" := fun hmm => hs ⟨hu1, hmm⟩
    have hne2 : f.MarshalType ≠ "string" := fun hmm => hne (hmm.trans hu1.symm)
    simp [hne, hu1, hm, hne2]
  · by_cases hu2 : f.UnmarshalType = "int"
    · have hm : f.MarshalType ≠ "string" := fun hmm => hi ⟨hu2, hmm⟩
      have hne2 : f.MarshalType ≠ "int" := fun hmm => hne (hmm.trans hu2.symm)
      simp [hne, hu1, hu2, hm, hne2]
    · simp [hne, hu1, hu2]

/-- C6 amended, witness: a concrete unsupported divergence emits nothing. -/
theorem C6_amended_witness :
    emitUnmarshalFieldCode ⟨"Y", "", "y", "y", "bool", "float64", false, false⟩ ["fmt"] =
      ("", ["fmt"]) :=
  C6_amended_no_case_emitted ⟨"Y", "", "y", "y", "bool", "float64", false, false⟩ ["fmt"]
    (by decide) (by decide) (by decide)

/-- C4 counterexample: the claim quantifies over every required field with a
pointer-prefixed marshal type, but a required pointer field whose marshal
name is the exclusion sentinel `"-"` is skipped before the required-field
handling (output.go lines 141-143): no guard, no `errors.New`, no nil check
appears anywhere in the routine. -/
theorem C4_excluded_required_counterexample :
    (mapGet C4XStruct.Fields "Ptr").Required = true ∧
    strStartsWith (mapGet C4XStruct.Fields "Ptr").MarshalType "*" = true ∧
    ¬ IsSubstring "errors.New" (emitMarshalCode C4XStruct []).1 ∧
    ¬ IsSubstring "== nil" (emitMarshalCode C4XStruct []).1 := by decide

/-- C4 amended: for every required field that is serialized at all (marshal
name not `"-"`): if its marshal type is pointer-prefixed, the Marshal
Emitter emits a guard returning an error naming the field's marshal name
when the value is nil; otherwise the required-field handling consists of
exactly two explanatory comment lines and no runtime presence check, and
those comments appear in the emitted routine. -/
theorem C4_amended_required_guard (s : Struct) (k : String) (f : Field) (i : List String)
    (hnd : (s.Fields.map Prod.fst).Nodup) (hmem : (k, f) ∈ s.Fields)
    (hreq : f.Required = true) (hnm : f.MarshalName ≠ "-") :
    (strStartsWith f.MarshalType "*" = true →
      IsSubstring
        ("    if strct." ++ f.Name ++ " == nil \x7b\n        return nil, errors.New(\"" ++
          f.MarshalName ++ " is a required field\")\n    \x7d\n")
        (emitMarshalCode s i).1) ∧
    (strStartsWith f.MarshalType "*" = false →
      marshalReqText f =
        "    // \"" ++ f.Name ++ "\" field is required\n" ++
        "    // only required object types supported for marshal checking (for now)\n" ∧
      IsSubstring
        ("    // \"" ++ f.Name ++ "\" field is required\n" ++
          "    // only required object types supported for marshal checking (for now)\n")
        (emitMarshalCode s i).1) := by
  constructor
  · intro hptr
    apply isSubstring_emitMarshalText hnd hmem
    simp only [marshalFieldText, marshalReqText, hnm, hreq, hptr, if_true, if_false,
      ite_true, ite_false, if_neg, not_false_eq_true]
    exact (((IsSubstring.refl _).appendLeft _).appendRight _).appendRight _ |>.appendRight _
  · intro hptr
    have hr : marshalReqText f =
        "    // \"" ++ f.Name ++ "\" field is required\n" ++
        "    // only required object types supported for marshal checking (for now)\n" := by
      simp [marshalReqText, hreq, hptr]
    refine ⟨hr, ?_⟩
    apply isSubstring_emitMarshalText hnd hmem
    simp only [marshalFieldText, hnm, if_false, ite_false, if_neg, not_false_eq_true]
    rw [hr]
    exact ((IsSubstring.refl _).appendRight _).appendRight _ |>.appendRight _

/-- C4 amended, witness: a record with a required pointer field `P` and a
required non-pointer field `Q`. -/
theorem C4_amended_witness :
    ((strStartsWith C4FieldP.MarshalType "*" = true →
      IsSubstring
        ("    if strct." ++ C4FieldP.Name ++ " == nil \x7b\n        return nil, errors.New(\"" ++
          C4FieldP.MarshalName ++ " is a required field\")\n    \x7d\n")
        (emitMarshalCode C4WStruct []).1) ∧
     (strStartsWith C4FieldP.MarshalType "*" = false →
      marshalReqText C4FieldP =
        "    // \"" ++ C4FieldP.Name ++ "\" field is required\n" ++
        "    // only required object types supported for marshal checking (for now)\n" ∧
      IsSubstring
        ("    // \"" ++ C4FieldP.Name ++ "\" field is required\n" ++
          "    // only required object types supported for marshal checking (for now)\n")
        (emitMarshalCode C4WStruct []).1)) ∧
    ((strStartsWith C4FieldQ.MarshalType "*" = true →
      IsSubstring
        ("    if strct." ++ C4FieldQ.Name ++ " == nil \x7b\n        return nil, errors.New(\"" ++
          C4FieldQ.MarshalName ++ " is a required field\")\n    \x7d\n")
        (emitMarshalCode C4WStruct []).1) ∧
     (strStartsWith C4FieldQ.MarshalType "*" = false →
      marshalReqText C4FieldQ =
        "    // \"" ++ C4FieldQ.Name ++ "\" field is required\n" ++
        "    // only required object types supported for marshal checking (for now)\n" ∧
      IsSubstring
        ("    // \"" ++ C4FieldQ.Name ++ "\" field is required\n" ++
          "    // only required object types supported for marshal checking (for now)\n")
        (emitMarshalCode C4WStruct []).1)) :=
  ⟨C4_amended_required_guard C4WStruct "P" C4FieldP [] (by decide) (by decide)
      (by decide) (by decide),
   C4_amended_required_guard C4WStruct "Q" C4FieldQ [] (by decide) (by decide)
      (by decide) (by decide)⟩

/-- C5 counterexample: the claim says the routine sets each required field's
received-flag in that field's dispatch case.  For a required field whose
read key is the sentinel `"-"` the flag is initialized (`-Received :=
false`, output.go lines 277-282 have no sentinel skip) but the dispatch
loop skips the field (lines 300-302), so no flag-set assignment is emitted
at all — the generated routine can never succeed. -/
theorem C5_sentinel_required_counterexample :
    (mapGet C5XStruct.Fields "Hidden").Required = true ∧
    (mapGet C5XStruct.Fields "Hidden").UnmarshalName = "-" ∧
    IsSubstring "    -Received := false\n" (emitUnmarshalCode C5XStruct []).1 ∧
    ¬ IsSubstring "Received = true" (emitUnmarshalCode C5XStruct []).1 := by decide

/-- C5 amended: for every required field the emitted unmarshal routine
initializes a received-flag to false and, after the dispatch loop, returns
an error naming the field's read key when the flag is still false; the
flag-set assignment is emitted, immediately after the field's dispatch case
text, only for required fields whose read key is not `"-"` (for an
unsupported type divergence that case text is empty, leaving the
assignment outside any case of its own; for the `"-"` sentinel no
assignment is emitted at all). -/
theorem C5_amended_required_tracking (s : Struct) (k : String) (f : Field) (i : List String)
    (hnd : (s.Fields.map Prod.fst).Nodup) (hmem : (k, f) ∈ s.Fields)
    (hreq : f.Required = true) :
    IsSubstring ("    " ++ f.UnmarshalName ++ "Received := false\n")
      (emitUnmarshalCode s i).1 ∧
    IsSubstring
      ("    // check if " ++ f.UnmarshalName ++ " (a required property) was received\n    if !" ++
        f.UnmarshalName ++ "Received \x7b\n        return errors.New(\"\\\"" ++ f.UnmarshalName ++
        "\\\" is required but was not present\")\n    \x7d\n")
      (emitUnmarshalCode s i).1 ∧
    (f.UnmarshalName ≠ "-" →
      IsSubstring
        (unmarshalFieldText f ++
          ("            " ++ f.UnmarshalName ++ "Received = true\n"))
        (emitUnmarshalCode s i).1) := by
  have hk : k ∈ getOrderedFieldNames s.Fields :=
    mem_sortStrings (List.mem_map_of_mem Prod.fst hmem)
  refine ⟨?_, ?_, ?_⟩
  · show IsSubstring _ (emitUnmarshalText s)
    apply isSubstring_unmarshal_of_flags
    rw [flagsText_eq]
    have h2 := isSubstring_concat
      (fun k2 =>
        let f2 := mapGet s.Fields k2
        if f2.Required then "    " ++ f2.UnmarshalName ++ "Received := false\n" else "") hk
    simpa only [mapGet_eq hnd hmem, hreq, if_true, ite_true] using h2
  · show IsSubstring _ (emitUnmarshalText s)
    apply isSubstring_unmarshal_of_checks
    rw [checksText_eq]
    have h2 := isSubstring_concat
      (fun k2 =>
        let f2 := mapGet s.Fields k2
        if f2.Required then
          "    // check if " ++ f2.UnmarshalName ++ " (a required property) was received\n    if !" ++
          f2.UnmarshalName ++ "Received \x7b\n        return errors.New(\"\\\"" ++
          f2.UnmarshalName ++ "\\\" is required but was not present\")\n    \x7d\n"
        else "") hk
    simpa only [mapGet_eq hnd hmem, hreq, if_true, ite_true] using h2
  · intro hun
    show IsSubstring _ (emitUnmarshalText s)
    apply isSubstring_unmarshal_of_cases
    rw [casesText_eq]
    have h2 := isSubstring_concat
      (fun k2 =>
        let f2 := mapGet s.Fields k2
        if f2.UnmarshalName = "-" then ""
        else unmarshalFieldText f2 ++
          (if f2.Required then "            " ++ f2.UnmarshalName ++ "Received = true\n"
           else "")) hk
    simpa only [mapGet_eq hnd hmem, hreq, hun, if_true, ite_true, if_false, ite_false,
      if_neg, not_false_eq_true] using h2

/-- C5 amended, witness: a record with one ordinary required field. -/
theorem C5_amended_witness :
    IsSubstring ("    " ++ C5FieldA.UnmarshalName ++ "Received := false\n")
      (emitUnmarshalCode C5WStruct []).1 ∧
    IsSubstring
      ("    // check if " ++ C5FieldA.UnmarshalName ++ " (a required property) was received\n    if !" ++
        C5FieldA.UnmarshalName ++ "Received \x7b\n        return errors.New(\"\\\"" ++
        C5FieldA.UnmarshalName ++ "\\\" is required but was not present\")\n    \x7d\n")
      (emitUnmarshalCode C5WStruct []).1 ∧
    (C5FieldA.UnmarshalName ≠ "-" →
      IsSubstring
        (unmarshalFieldText C5FieldA ++
          ("            " ++ C5FieldA.UnmarshalName ++ "Received = true\n"))
        (emitUnmarshalCode C5WStruct []).1) :=
  C5_amended_required_tracking C5WStruct "A" C5FieldA [] (by decide) (by decide) (by decide)

/-- C8: for every model the output stream consists, in order, of the
generated-file marker and package declaration; the facility/import block
only when the collected set is non-empty; one type-synonym declaration per
alias in sorted alias order; one declaration block per record in sorted
record order (doc comment, then field declarations in sorted field order
with optional per-field doc comments — see `structDeclText`); then the
buffered Marshal/Unmarshal/Map-View routines for every record flagged
`GenerateCode`, in the same sorted record order (see `codeSectionText`). -/
theorem C8_output_stream_order (g : Generator) (pkg : String) (importOrder : List String) :
    Output g pkg importOrder =
      outputHeaderText pkg ++ importSectionText g importOrder ++
      aliasSectionText g ++ structSectionText g ++ codeSectionText g := by
  rw [output_decomp]
  unfold outputTailText
  simp [String.append_assoc]

/-- C9: the emitted ToMap routine assigns exactly one entry per declared
field, in sorted field order, keyed by the field's marshal name and valued
by the field's current value, with no additional-properties entries (the
routine is exactly the header, the per-field assignments, and the footer);
in particular the assignment line of every field is present — including a
field whose marshal name is the exclusion sentinel `"-"`, which gets an
entry under the literal key `"-"`. -/
theorem C9_tomap_projection (s : Struct) (k : String) (f : Field)
    (hnd : (s.Fields.map Prod.fst).Nodup) (hmem : (k, f) ∈ s.Fields) :
    emitToMapCode s =
      "\nfunc (strct *" ++ s.Name ++ ") ToMap() map[string]any \x7b\n" ++
      "    m := make(map[string]any)\n" ++
      strConcat ((getOrderedFieldNames s.Fields).map
        (fun fk =>
          let fd := mapGet s.Fields fk
          "    m[\"" ++ fd.MarshalName ++ "\"] = strct." ++ fd.Name ++ "\n")) ++
      "    return m\n\x7d\n" ∧
    IsSubstring ("    m[\"" ++ f.MarshalName ++ "\"] = strct." ++ f.Name ++ "\n")
      (emitToMapCode s) := by
  refine ⟨emitToMapCode_eq s, ?_⟩
  rw [emitToMapCode_eq]
  have hk : k ∈ getOrderedFieldNames s.Fields :=
    mem_sortStrings (List.mem_map_of_mem Prod.fst hmem)
  have h2 := isSubstring_concat
    (fun fk =>
      let fd := mapGet s.Fields fk
      "    m[\"" ++ fd.MarshalName ++ "\"] = strct." ++ fd.Name ++ "\n") hk
  simp only [mapGet_eq hnd hmem] at h2
  exact (h2.appendLeft _).appendRight _

/-- C9 witness: a record whose only field carries the `"-"` sentinel as its
marshal name still produces the `m["-"] = strct.H` entry. -/
theorem C9_tomap_witness :
    emitToMapCode C9Struct =
      "\nfunc (strct *" ++ C9Struct.Name ++ ") ToMap() map[string]any \x7b\n" ++
      "    m := make(map[string]any)\n" ++
      strConcat ((getOrderedFieldNames C9Struct.Fields).map
        (fun fk =>
          let fd := mapGet C9Struct.Fields fk
          "    m[\"" ++ fd.MarshalName ++ "\"] = strct." ++ fd.Name ++ "\n")) ++
      "    return m\n\x7d\n" ∧
    IsSubstring ("    m[\"" ++ C9FieldH.MarshalName ++ "\"] = strct." ++ C9FieldH.Name ++ "\n")
      (emitToMapCode C9Struct) :=
  C9_tomap_projection C9Struct "H" C9FieldH (by decide) (by decide)

/-- C10: for a record whose additional type is the empty string the emitted
unmarshal dispatch switch has no default case at all — the routine is
exactly the same text as for additional type `"false"` minus the
`default: continue` clause, so at runtime unknown keys fall through the
switch and are silently skipped, observationally the unknown-key behavior
of `"false"` (a Go switch without default does nothing for an unmatched
key, exactly as `default: continue`). -/
theorem C10_empty_additional_no_default (s : Struct) (i : List String)
    (h : s.AdditionalType = "") :
    (emitUnmarshalCode s i).1 =
      (unmarshalHeadText s ++ flagsText s ++ unmarshalParseText ++ unmarshalLoopOpenText ++
        casesText s) ++
      (unmarshalCloseText ++ checksText s ++ unmarshalEndText) ∧
    (emitUnmarshalCode { s with AdditionalType := "false" } i).1 =
      (unmarshalHeadText s ++ flagsText s ++ unmarshalParseText ++ unmarshalLoopOpenText ++
        casesText s) ++
      "        default:\n            continue\n" ++
      (unmarshalCloseText ++ checksText s ++ unmarshalEndText) := by
  constructor
  · show emitUnmarshalText s = _
    have hA : unmarshalAdditionalText s = "" := by
      unfold unmarshalAdditionalText
      rw [if_pos h]
    unfold emitUnmarshalText
    rw [hA]
    simp [String.append_assoc]
  · show emitUnmarshalText { s with AdditionalType := "false" } = _
    have hH : unmarshalHeadText { s with AdditionalType := "false" } = unmarshalHeadText s := rfl
    have hF : flagsText { s with AdditionalType := "false" } = flagsText s := rfl
    have hC : casesText { s with AdditionalType := "false" } = casesText s := rfl
    have hK : checksText { s with AdditionalType := "false" } = checksText s := rfl
    have hA : unmarshalAdditionalText { s with AdditionalType := "false" } =
        "        default:\n            continue\n" := rfl
    unfold emitUnmarshalText
    rw [hH, hF, hC, hK, hA]
    simp [String.append_assoc]

/-- C10 witness at a concrete record with empty additional type. -/
theorem C10_witness :
    (emitUnmarshalCode C10Struct []).1 =
      (unmarshalHeadText C10Struct ++ flagsText C10Struct ++ unmarshalParseText ++
        unmarshalLoopOpenText ++ casesText C10Struct) ++
      (unmarshalCloseText ++ checksText C10Struct ++ unmarshalEndText) ∧
    (emitUnmarshalCode { C10Struct with AdditionalType := "false" } []).1 =
      (unmarshalHeadText C10Struct ++ flagsText C10Struct ++ unmarshalParseText ++
        unmarshalLoopOpenText ++ casesText C10Struct) ++
      "        default:\n            continue\n" ++
      (unmarshalCloseText ++ checksText C10Struct ++ unmarshalEndText) :=
  C10_empty_additional_no_default C10Struct [] rfl

end SchemaGenerate
